import Mathlib

/-!
Shallow embedding of the VoiceSphere voice-chat client.

Part 1 models the Completion Relay, `src/app/api/chat/route.ts` (the `POST`
handler): request-field extraction, the outgoing message list built from the
fixed system persona plus the filtered history, and the categorized error
responses.

Part 2 models the Conversation Session Controller,
`src/app/components/VoiceAssistant.tsx`: the component state (messages,
pendingText, isListening, isProcessing, recognitionError, the abort-controller
ref) and each handler (`submitQuery`, the fetch resolution including the
catch/finally branches, `recognition.onend`, `recognition.onerror`,
`recognition.onresult`, `handleMicPress`, `handleReset`, `handleSubmit`)
as explicit state-transition functions.
-/

namespace VoiceSphere

/-- Drop leading whitespace characters from a character list. -/
def dropWhileWs : List Char → List Char
  | [] => []
  | c :: cs => if c.isWhitespace then dropWhileWs cs else c :: cs

/-- JavaScript's `String.prototype.trim()`: strip whitespace from both ends.
Defined by structural recursion on the character list so that it evaluates
inside the kernel. -/
def jsTrim (s : String) : String :=
  String.mk ((dropWhileWs (dropWhileWs s.data).reverse).reverse)

/-! ## Part 1: Completion Relay (`src/app/api/chat/route.ts`) -/

/-- The fixed system persona, `SYSTEM_PROMPT` in `route.ts`. -/
def SYSTEM_PROMPT : String :=
  "You are VoiceSphere, an upbeat AI assistant inspired by Siri.\n- Speak concisely and clearly.\n- Reference the user\x27s context when helpful.\n- Offer actionable next steps when the user asks for help.\n- Keep the conversation friendly yet professional.\n- If you are unsure, say so transparently and suggest an alternative."

/-- A message of the outgoing list sent to the completion API. -/
structure OutMsg where
  role : String
  content : String
deriving DecidableEq, Repr

/-- A JSON primitive as the relay sees a field of a history entry: either a
string or a value of some other type (`typeof x === "string"` fails). -/
inductive JPrim where
  | str (s : String)
  | nonStr
deriving DecidableEq, Repr

/-- One entry of the request body history array: either a null-ish value
(the code guards with `message &&`) or an object with `role` and `content`
fields of arbitrary JSON type. -/
inductive HistEntry where
  | nullE
  | entry (role : JPrim) (content : JPrim)
deriving DecidableEq, Repr

/-- The `prompt` field of the request body: a string, or anything else
(absent, number, null, ...), for which `typeof payload?.prompt === "string"`
is false. -/
inductive PromptField where
  | str (s : String)
  | nonString
deriving DecidableEq, Repr

/-- The `history` field of the request body: an array of entries, or anything
else (absent, object, ...), for which `Array.isArray` is false. -/
inductive HistoryField where
  | arr (xs : List HistEntry)
  | nonArray
deriving DecidableEq, Repr

/-- The parsed request body. -/
structure Payload where
  prompt : PromptField
  history : HistoryField
deriving DecidableEq, Repr

/-- Outcome of the upstream `openai.chat.completions.create` call: either it
returns, carrying `choices[0]?.message?.content` (an optional string), or it
throws. -/
inductive UpstreamOutcome where
  | ok (firstContent : Option String)
  | exn
deriving DecidableEq, Repr

/-- The relay handler response: `{ reply }` with status 200, or
`{ error }` with the given status. -/
inductive RelayResponse where
  | reply (text : String)
  | error (message : String) (status : Nat)
deriving DecidableEq, Repr

/-- `typeof payload?.prompt === "string" ? payload.prompt.trim() : ""`. -/
def extractPrompt (p : Payload) : String :=
  match p.prompt with
  | .str s => jsTrim s
  | .nonString => ""

/-- `Array.isArray(payload?.history) ? payload.history : []`. -/
def extractHistory (p : Payload) : List HistEntry :=
  match p.history with
  | .arr xs => xs
  | .nonArray => []

/-- The history filter of lines 44-49 of `route.ts`:
`message && typeof message.content === "string" &&
(message.role === "assistant" || message.role === "user")`. -/
def keepEntry : HistEntry → Bool
  | .nullE => false
  | .entry r c =>
    (match c with
     | .str _ => true
     | .nonStr => false) &&
    (match r with
     | .str s => s == "assistant" || s == "user"
     | .nonStr => false)

/-- The map of lines 50-53 of `route.ts`, projecting a kept entry to
`{ role, content }`. Entries that the filter dropped never reach this map;
the catch-all arm is unreachable on filtered input. -/
def entryToMessage : HistEntry → OutMsg
  | .entry (.str r) (.str c) => { role := r, content := c }
  | _ => { role := "", content := "" }

/-- The outgoing `messages` list of lines 41-55 of `route.ts`: the fixed
system persona, the filtered-and-mapped history, then the user prompt. -/
def postMessages (prompt : String) (history : List HistEntry) : List OutMsg :=
  { role := "system", content := SYSTEM_PROMPT } ::
    ((history.filter keepEntry).map entryToMessage ++
      [{ role := "user", content := prompt }])

/-- The outgoing message list as a function of the raw payload. -/
def relayMessages (p : Payload) : List OutMsg :=
  postMessages (extractPrompt p) (extractHistory p)

/-- The JavaScript falsiness test `!apiKey` on `process.env.OPENAI_API_KEY`:
true when the variable is absent or the empty string. -/
def keyMissing : Option String → Bool
  | none => true
  | some k => k == ""

/-- The `POST` handler of `route.ts`. The upstream API is passed as a
function from the outgoing message list to an outcome; it is consulted only
when the handler reaches the `openai.chat.completions.create` call. -/
def POST (apiKey : Option String) (payload : Payload)
    (upstream : List OutMsg → UpstreamOutcome) : RelayResponse :=
  if keyMissing apiKey then
    .error "The assistant is not configured. Set OPENAI_API_KEY." 500
  else
    let prompt := extractPrompt payload
    let history := extractHistory payload
    if prompt = "" then
      .error "Please provide a prompt." 400
    else
      match upstream (postMessages prompt history) with
      | .exn => .error "Failed to process that request." 500
      | .ok firstContent =>
        match firstContent with
        | none => .error "The assistant could not craft a reply." 500
        | some content =>
          let reply := jsTrim content
          if reply = "" then
            .error "The assistant could not craft a reply." 500
          else
            .reply reply

/-! ## Part 2: Session Controller (`src/app/components/VoiceAssistant.tsx`) -/

/-- A transcript turn role. -/
inductive Role where
  | user
  | assistant
deriving DecidableEq, Repr

/-- The `Message` interface of `VoiceAssistant.tsx`. -/
structure Message where
  role : Role
  content : String
  timestamp : Nat
deriving DecidableEq, Repr

/-- One relay call issued by `submitQuery`: the id of its `AbortController`,
the prompt sent, and the history snapshot (the `messages` value captured by
the callback closure, i.e. the transcript before the optimistic user
append). -/
structure Call where
  id : Nat
  prompt : String
  history : List Message
deriving DecidableEq, Repr

/-- The component state of `VoiceAssistant`. `currentController` is
`controllerRef.current` (by id); `aborted` records every controller id on
which `.abort()` has been called; `calls` is the append-only log of fetches
issued; `speaking` is the utterance currently passed to speech synthesis
(`speakText` cancels any prior one first, `handleReset` cancels it). -/
structure ClientState where
  messages : List Message
  isListening : Bool
  recognitionError : Option String
  pendingText : String
  isProcessing : Bool
  currentController : Option Nat
  aborted : List Nat
  calls : List Call
  nextId : Nat
  speaking : Option String
deriving DecidableEq, Repr

/-- The initial component state. -/
def initState : ClientState :=
  { messages := []
    isListening := false
    recognitionError := none
    pendingText := ""
    isProcessing := false
    currentController := none
    aborted := []
    calls := []
    nextId := 0
    speaking := none }

/-- The fixed unavailable-capability diagnostic, `RECOGNITION_ERROR` in the
source. -/
def RECOGNITION_ERROR : String :=
  "Speech recognition is unavailable. Please use a Chromium-based browser."

/-- The fixed permission-denied diagnostic of `recognition.onerror`. -/
def PERMISSION_DENIED : String :=
  "Microphone access denied. Please enable it in your browser."

/-- The error template of `submitQuery`: the catch block renders a caught
`Error` as this message. -/
def problemMsg (m : String) : String :=
  "I ran into a problem: " ++ m

/-- The synchronous part of `submitQuery(content)` (lines 96-122 in the
original numbering): set `isProcessing`, optimistically append the user
turn, abort any prior controller, install a fresh controller, and issue the
fetch whose body carries `content` and the closure-captured `messages`
(the transcript before the append). -/
def submitQuery (s : ClientState) (content : String) (t : Nat) : ClientState :=
  { s with
    isProcessing := true
    messages := s.messages ++ [{ role := .user, content := content, timestamp := t }]
    aborted :=
      match s.currentController with
      | some i => s.aborted ++ [i]
      | none => s.aborted
    currentController := some s.nextId
    nextId := s.nextId + 1
    calls := s.calls ++ [{ id := s.nextId, prompt := content, history := s.messages }] }

/-- The network-level outcome of one fetch, for a call that was not
aborted: an ok response with `{ reply }`, a non-ok response whose body text
the code throws, or a network failure. -/
inductive NetResult where
  | ok (reply : String)
  | httpError (body : String)
  | netFail (message : String)
deriving DecidableEq, Repr

/-- The asynchronous continuation of `submitQuery` for call `c`: if the
call's controller was aborted, the fetch promise rejects (an `AbortError`
with message `abortMessage`) regardless of the network, and the catch block
appends a templated assistant turn; otherwise success appends the reply and
speaks it (speakText cancels any prior utterance first), a non-ok response
throws its body text (or `"Something went wrong"` when empty) into the same
catch, and so does a network failure. The finally block always clears
`isProcessing`. -/
def resolveFetch (s : ClientState) (c : Call) (res : NetResult)
    (abortMessage : String) (t : Nat) : ClientState :=
  if s.aborted.contains c.id then
    { s with
      messages := s.messages ++
        [{ role := .assistant, content := problemMsg abortMessage, timestamp := t }]
      isProcessing := false }
  else
    match res with
    | .ok reply =>
      { s with
        messages := s.messages ++
          [{ role := .assistant, content := reply, timestamp := t }]
        isProcessing := false
        speaking := some reply }
    | .httpError body =>
      { s with
        messages := s.messages ++
          [{ role := .assistant,
             content := problemMsg (if body = "" then "Something went wrong" else body),
             timestamp := t }]
        isProcessing := false }
    | .netFail m =>
      { s with
        messages := s.messages ++
          [{ role := .assistant, content := problemMsg m, timestamp := t }]
        isProcessing := false }

/-- `recognition.onresult`: replace `pendingText` with the trimmed cumulative
transcript of the event. -/
def onResult (s : ClientState) (transcript : String) : ClientState :=
  { s with pendingText := jsTrim transcript }

/-- The body of `recognition.onend` (lines 63-68) as a function of the
`pendingText` binding the handler closure holds: leave Listening; if that
captured text trims to empty, do nothing more; otherwise submit it via
`submitQuery` and then clear the live `pendingText`. -/
def onEndBody (captured : String) (s : ClientState) (t : Nat) : ClientState :=
  let s1 := { s with isListening := false }
  if jsTrim captured = "" then s1
  else { submitQuery s1 (jsTrim captured) t with pendingText := "" }

/-- `recognition.onend` as actually installed. The installing effect has
dependency array `[speechAvailable]` (with the exhaustive-deps lint
disabled) and `speechAvailable` never changes, so the effect runs once at
mount and the handler closure captures the mount-time `pendingText`, the
empty string, forever; later `setPendingText` calls update the component
state but not that captured binding. -/
def onEnd (s : ClientState) (t : Nat) : ClientState :=
  onEndBody "" s t

/-- `recognition.onerror` (lines 70-73): leave Listening and set the
diagnostic field, a fixed string for the `"not-allowed"` code and a generic
template otherwise. The transcript is untouched. -/
def onError (s : ClientState) (code : String) : ClientState :=
  { s with
    isListening := false
    recognitionError :=
      some (if code = "not-allowed" then PERMISSION_DENIED
            else "Recognition error: " ++ code) }

/-- `handleMicPress`: with no capture capability set the fixed diagnostic;
while listening, stop; otherwise clear the diagnostic and the pending text
and start listening (the model takes `recognition.start()` to succeed). -/
def handleMicPress (s : ClientState) (speechAvailable : Bool) : ClientState :=
  if !speechAvailable then
    { s with recognitionError := some RECOGNITION_ERROR }
  else if s.isListening then
    { s with isListening := false }
  else
    { s with recognitionError := none, pendingText := "", isListening := true }

/-- `handleReset` (lines 181-189): abort the current controller, empty the
transcript, clear the pending text, clear `isProcessing`, and cancel speech
synthesis. The handler touches nothing else. -/
def handleReset (s : ClientState) : ClientState :=
  { s with
    aborted :=
      match s.currentController with
      | some i => s.aborted ++ [i]
      | none => s.aborted
    messages := []
    pendingText := ""
    isProcessing := false
    speaking := none }

/-- `handleSubmit` (lines 191-202): trim the form text; if empty, return
without submitting; otherwise submit it. -/
def handleSubmit (s : ClientState) (formText : String) (t : Nat) : ClientState :=
  let text := jsTrim formText
  if text = "" then s else submitQuery s text t

/-- The session state enumeration of the specification, as a view of the
component flags: Listening while `isListening`, else Processing while
`isProcessing`, else Idle. -/
inductive SessionState where
  | Idle
  | Listening
  | Processing
deriving DecidableEq, Repr

/-- Derive the specification's session state from the component flags. -/
def sessionState (s : ClientState) : SessionState :=
  if s.isListening then .Listening
  else if s.isProcessing then .Processing
  else .Idle

/-! ## Theorems about the Completion Relay -/

/-- Spec-side characterization of the history filtering, written from the
specification's words for comparison with the code's filter-and-map: keep
exactly the entries whose role is the string `"user"` or `"assistant"` and
whose content is a string, projected to a role/content message, in order. -/
def keepTurnSpec : HistEntry → Option OutMsg
  | .entry (.str r) (.str c) =>
    if r = "user" ∨ r = "assistant" then some { role := r, content := c }
    else none
  | _ => none

/-- The code's filter-then-map over the history agrees with the spec-side
`filterMap` characterization. -/
theorem filtered_history_eq_filterMap (xs : List HistEntry) :
    (xs.filter keepEntry).map entryToMessage = xs.filterMap keepTurnSpec := by
  induction xs with
  | nil => rfl
  | cons e rest ih =>
    cases e with
    | nullE =>
      simp [List.filter_cons, List.filterMap_cons, keepEntry, keepTurnSpec, ih]
    | entry r c =>
      cases r with
      | nonStr =>
        cases c <;>
          simp [List.filter_cons, List.filterMap_cons, keepEntry, keepTurnSpec, ih]
      | str rs =>
        cases c with
        | nonStr =>
          simp [List.filter_cons, List.filterMap_cons, keepEntry, keepTurnSpec, ih]
        | str cs =>
          by_cases ha : rs = "assistant"
          · simp [List.filter_cons, List.filterMap_cons, keepEntry, keepTurnSpec,
              entryToMessage, ha, ih]
          · by_cases hu : rs = "user"
            · simp [List.filter_cons, List.filterMap_cons, keepEntry, keepTurnSpec,
                entryToMessage, ha, hu, ih]
            · simp [List.filter_cons, List.filterMap_cons, keepEntry, keepTurnSpec,
                entryToMessage, ha, hu, ih]

/-- C4: for every prompt string and history sequence, the outgoing message
list is the fixed system persona, then exactly the history entries whose role
is user or assistant with string content (others dropped) in original order,
then one user message carrying the trimmed prompt last; in particular for
prompt "What\x27s the weather?" and empty history it is
[system, user(prompt)]. -/
theorem c4_outgoing_message_list (prompt : String) (history : List HistEntry) :
    relayMessages { prompt := .str prompt, history := .arr history } =
      { role := "system", content := SYSTEM_PROMPT } ::
        (history.filterMap keepTurnSpec ++
          [{ role := "user", content := jsTrim prompt }]) ∧
    relayMessages { prompt := .str "What\x27s the weather?", history := .arr [] } =
      [{ role := "system", content := SYSTEM_PROMPT },
       { role := "user", content := "What\x27s the weather?" }] := by
  constructor
  · simp [relayMessages, postMessages, extractPrompt, extractHistory,
      filtered_history_eq_filterMap]
  · simp [relayMessages, postMessages, extractPrompt, extractHistory]
    decide

/-- C7: the relay's error responses are exactly categorized: missing or
empty credential gives a 500 error issued independently of the upstream
(no upstream request is consulted); a prompt empty after trimming gives a
400 error; an upstream exception or an upstream reply that is absent or
empty after trimming gives a 500 error; every error response carries a
message string. -/
theorem c7_error_categorization (payload : Payload) (k c : String)
    (u u₁ u₂ : List OutMsg → UpstreamOutcome) (hk : k ≠ "") :
    (POST none payload u₁ = POST none payload u₂) ∧
    (POST none payload u =
      .error "The assistant is not configured. Set OPENAI_API_KEY." 500) ∧
    (POST (some "") payload u =
      .error "The assistant is not configured. Set OPENAI_API_KEY." 500) ∧
    (extractPrompt payload = "" →
      POST (some k) payload u = .error "Please provide a prompt." 400) ∧
    (extractPrompt payload ≠ "" →
      POST (some k) payload (fun _ => .exn) =
        .error "Failed to process that request." 500) ∧
    (extractPrompt payload ≠ "" →
      POST (some k) payload (fun _ => .ok none) =
        .error "The assistant could not craft a reply." 500) ∧
    (extractPrompt payload ≠ "" → jsTrim c = "" →
      POST (some k) payload (fun _ => .ok (some c)) =
        .error "The assistant could not craft a reply." 500) := by
  refine ⟨by simp [POST, keyMissing], by simp [POST, keyMissing],
    by simp [POST, keyMissing], ?_, ?_, ?_, ?_⟩
  · intro h; simp [POST, keyMissing, hk, h]
  · intro h; simp [POST, keyMissing, hk, h]
  · intro h; simp [POST, keyMissing, hk, h]
  · intro h hc; simp [POST, keyMissing, hk, h, hc]

/-- C7 witness: with a configured key and a non-empty prompt, an upstream
exception yields the 500 processing-failure error. -/
theorem c7_witness :
    POST (some "k") { prompt := .str "hi", history := .arr [] }
        (fun _ => .exn) = .error "Failed to process that request." 500 :=
  (c7_error_categorization { prompt := .str "hi", history := .arr [] } "k" " "
    (fun _ => .exn) (fun _ => .exn) (fun _ => .exn)
    (by decide)).2.2.2.2.1 (by decide)

/-- C8: with a configured key and non-empty prompt, a successful upstream
completion makes the relay return exactly the trimmed first candidate text
as the reply, atomically; and it returns an error exactly when the upstream
call throws or the first candidate's text is absent or trims to empty. -/
theorem c8_success_reply_and_upstream_error (payload : Payload) (k c : String)
    (hk : k ≠ "") (hp : extractPrompt payload ≠ "") :
    (jsTrim c ≠ "" →
      POST (some k) payload (fun _ => .ok (some c)) = .reply (jsTrim c)) ∧
    (∀ u : UpstreamOutcome,
      (∃ e st, POST (some k) payload (fun _ => u) = .error e st) ↔
        (u = .exn ∨ u = .ok none ∨ ∃ d, u = .ok (some d) ∧ jsTrim d = "")) := by
  constructor
  · intro hc; simp [POST, keyMissing, hk, hp, hc]
  · intro u
    cases u with
    | exn => simp [POST, keyMissing, hk, hp]
    | ok oc =>
      cases oc with
      | none => simp [POST, keyMissing, hk, hp]
      | some d =>
        by_cases hd : jsTrim d = "" <;>
          simp [POST, keyMissing, hk, hp, hd]

/-- C8 witness: a concrete successful completion is returned trimmed. -/
theorem c8_witness :
    POST (some "k") { prompt := .str "hi", history := .arr [] }
        (fun _ => .ok (some " It is sunny. ")) = .reply "It is sunny." :=
  (c8_success_reply_and_upstream_error
    { prompt := .str "hi", history := .arr [] } "k" " It is sunny. "
    (by decide) (by decide)).1 (by decide)

/-- C10: a request whose history field is absent or not an array behaves
exactly as if the history were empty (and with a non-empty trimmed prompt
the outgoing list is just the system persona and the user prompt); a
request whose prompt field is absent or not a string is treated as an
empty prompt and answered with the 400 empty-prompt error. -/
theorem c10_missing_fields_default (pf : PromptField) (hf : HistoryField)
    (k : String) (ak : Option String) (u : List OutMsg → UpstreamOutcome)
    (hk : k ≠ "") :
    (POST ak { prompt := pf, history := .nonArray } u =
      POST ak { prompt := pf, history := .arr [] } u) ∧
    (extractPrompt { prompt := pf, history := (.nonArray : HistoryField) } ≠ "" →
      relayMessages { prompt := pf, history := .nonArray } =
        [{ role := "system", content := SYSTEM_PROMPT },
         { role := "user",
           content := extractPrompt { prompt := pf, history := .nonArray } }]) ∧
    (POST (some k) { prompt := .nonString, history := hf } u =
      .error "Please provide a prompt." 400) := by
  refine ⟨rfl, ?_, ?_⟩
  · intro h; simp [relayMessages, postMessages, extractHistory]
  · simp [POST, keyMissing, hk, extractPrompt]

/-- C10 witness: a non-string prompt field is answered with the 400
empty-prompt error. -/
theorem c10_witness :
    POST (some "k") { prompt := .nonString, history := .arr [] }
        (fun _ => .exn) = .error "Please provide a prompt." 400 :=
  (c10_missing_fields_default (.str "hi") (.arr []) "k" (some "k")
    (fun _ => .exn) (by decide)).2.2

/-! ## Theorems about the Session Controller -/

/-- C9: a capture runtime error leaves the transcript (and the call log)
unchanged, leaves the Listening state, and sets only the diagnostic field:
the fixed permission-denied string for the `"not-allowed"` code and a
generic template incorporating the code otherwise. -/
theorem c9_capture_error_sets_only_diagnostic (s : ClientState) (code : String) :
    (onError s code).messages = s.messages ∧
    (onError s code).calls = s.calls ∧
    (onError s code).isListening = false ∧
    (onError s code).recognitionError =
      some (if code = "not-allowed" then PERMISSION_DENIED
            else "Recognition error: " ++ code) := by
  simp [onError]

/-- C3: for a non-empty trimmed prompt, `submitQuery` immediately appends
exactly one user turn with that content and issues exactly one relay call;
a resolution of a non-cancelled call appends exactly one assistant turn,
carrying the reply on success and a templated human-readable message on any
failure (the error is caught, never rethrown). -/
theorem c3_one_user_turn_then_one_assistant_turn (s : ClientState)
    (content : String) (t : Nat) (_h : jsTrim content ≠ "") :
    (submitQuery s content t).messages =
      s.messages ++ [{ role := .user, content := content, timestamp := t }] ∧
    (submitQuery s content t).calls =
      s.calls ++ [{ id := s.nextId, prompt := content, history := s.messages }] ∧
    ∀ (s₂ : ClientState) (c : Call) (reply body em m : String) (t₂ : Nat),
      s₂.aborted.contains c.id = false →
        ((resolveFetch s₂ c (.ok reply) m t₂).messages =
            s₂.messages ++
              [{ role := .assistant, content := reply, timestamp := t₂ }] ∧
          (resolveFetch s₂ c (.httpError body) m t₂).messages =
            s₂.messages ++
              [{ role := .assistant,
                 content :=
                   problemMsg (if body = "" then "Something went wrong" else body),
                 timestamp := t₂ }] ∧
          (resolveFetch s₂ c (.netFail em) m t₂).messages =
            s₂.messages ++
              [{ role := .assistant, content := problemMsg em, timestamp := t₂ }]) := by
  refine ⟨by simp [submitQuery], by simp [submitQuery], ?_⟩
  intro s₂ c reply body em m t₂ hab
  have hab' : c.id ∉ s₂.aborted := by simpa using hab
  simp [resolveFetch, hab']

/-- C3 witness: a concrete submission appends the one user turn. -/
theorem c3_witness :
    (submitQuery initState "hi" 1).messages =
      [{ role := .user, content := "hi", timestamp := 1 }] := by
  simpa using
    (c3_one_user_turn_then_one_assistant_turn initState "hi" 1 (by decide)).1

/-- C5: the capture-finalize path is dead code. The installed
`recognition.onend` handler closes over the mount-time `pendingText`, the
empty string, so for every state it only leaves Listening: it appends no
turn, issues no relay call and never clears the live pending text. The
handler body applied to the live pending text — which is what the body's
own source plainly intends and what the claim states — would append the
user turn and issue the call whenever that text trims non-empty. -/
theorem c5_finalize_never_submits (s : ClientState) (t : Nat) :
    onEnd s t = { s with isListening := false } ∧
    (jsTrim s.pendingText ≠ "" →
      (onEndBody s.pendingText s t).messages =
        s.messages ++
          [{ role := .user, content := jsTrim s.pendingText, timestamp := t }] ∧
      (onEndBody s.pendingText s t).calls =
        s.calls ++
          [{ id := s.nextId, prompt := jsTrim s.pendingText,
             history := s.messages }]) := by
  constructor
  · have h0 : jsTrim "" = "" := rfl
    simp [onEnd, onEndBody, h0]
  · intro h
    simp [onEndBody, submitQuery, h]

/-- C5 witness: with the live pending text "hello", the installed handler
changes nothing but the Listening flag, while the handler body over that
text would submit it. -/
theorem c5_witness :
    onEnd { initState with pendingText := "hello" } 1 =
      { initState with pendingText := "hello", isListening := false } ∧
    (onEndBody "hello" { initState with pendingText := "hello" } 1).messages =
      [{ role := .user, content := "hello", timestamp := 1 }] := by
  constructor
  · exact (c5_finalize_never_submits
      { initState with pendingText := "hello" } 1).1
  · simpa using
      ((c5_finalize_never_submits
        { initState with pendingText := "hello" } 1).2 (by decide)).1

/-- C6 counterexample: `submitQuery` itself has no emptiness guard: called
with the empty prompt it appends a user turn and issues a relay call, so it
is not a no-op. -/
theorem c6_counterexample :
    (submitQuery initState "" 0).messages ≠ initState.messages ∧
    (submitQuery initState "" 0).calls ≠ initState.calls := by
  decide

/-- C6 amended: `submitQuery` itself performs no emptiness check (calling it
directly with an empty or whitespace-only prompt appends a user turn and
issues a relay call); instead both of its call sites guard: `handleSubmit`
with form text that trims to empty is a no-op, and the capture-ended handler
with a pending transcript that trims to empty submits nothing, appends
nothing, and only leaves Listening. -/
theorem c6_empty_prompt_guarded_at_call_sites (s : ClientState) (text : String)
    (t : Nat) (h : jsTrim text = "") :
    handleSubmit s text t = s ∧
    onEnd { s with pendingText := text } t =
      { s with pendingText := text, isListening := false } := by
  constructor
  · simp [handleSubmit, h]
  · have h0 : jsTrim "" = "" := rfl
    simp [onEnd, onEndBody, h0]

/-- C6 witness: a whitespace-only typed submission changes nothing. -/
theorem c6_witness :
    handleSubmit initState "  " 0 = initState :=
  (c6_empty_prompt_guarded_at_call_sites initState "  " 0 (by decide)).1

/-- C1 counterexample: call A (controller 0) is in flight, a second
`submitQuery` starts call B and aborts A; when A's fetch then settles, its
rejection is caught and appends an assistant turn, so the cancelled call's
resolution does mutate the transcript, contrary to the claim. -/
theorem c1_counterexample :
    (resolveFetch (submitQuery (submitQuery initState "first" 1) "second" 2)
          { id := 0, prompt := "first", history := [] }
          (.ok "a reply") "The user aborted a request." 3).messages ≠
      (submitQuery (submitQuery initState "first" 1) "second" 2).messages := by
  decide

/-- C1 amended: starting call B aborts in-flight call A, and for every
execution in which A settles after B starts, A's reply is never appended to
the transcript: whatever the network returned for A, A's settled fetch
appends exactly one assistant turn carrying the templated abort message
(its content independent of A's result), so only B's result, B's
cancellation, or A's cancellation turn may appear. -/
theorem c1_cancelled_call_never_appends_its_reply (s : ClientState) (i : Nat)
    (b : String) (t₁ : Nat) (h : s.currentController = some i) (c : Call)
    (hc : c.id = i) (res : NetResult) (m : String) (t₂ : Nat) :
    (submitQuery s b t₁).aborted.contains i = true ∧
    (resolveFetch (submitQuery s b t₁) c res m t₂).messages =
      (submitQuery s b t₁).messages ++
        [{ role := .assistant, content := problemMsg m, timestamp := t₂ }] := by
  have hmem : i ∈ (submitQuery s b t₁).aborted := by
    simp [submitQuery, h]
  refine ⟨by simpa using hmem, ?_⟩
  simp [resolveFetch, hc, hmem]

/-- C1 witness: the concrete two-call trace, with the cancelled call
resolving last: only the two user turns and the abort turn appear; the
cancelled reply never does. -/
theorem c1_witness :
    (resolveFetch (submitQuery (submitQuery initState "first" 1) "second" 2)
          { id := 0, prompt := "first", history := [] }
          (.ok "a reply") "aborted" 3).messages =
      [{ role := .user, content := "first", timestamp := 1 },
       { role := .user, content := "second", timestamp := 2 },
       { role := .assistant, content := problemMsg "aborted", timestamp := 3 }] := by
  simpa using
    (c1_cancelled_call_never_appends_its_reply
      (submitQuery initState "first" 1) 0 "second" 2 rfl
      { id := 0, prompt := "first", history := [] } rfl
      (.ok "a reply") "aborted" 3).2

/-- C2 counterexample: reset while listening with a relay call in flight:
`handleReset` never stops capture, so the state stays Listening rather than
Idle; and the aborted call's rejection afterwards re-populates the emptied
transcript with an assistant error turn. -/
theorem c2_counterexample :
    sessionState (handleReset
        (handleMicPress (handleSubmit initState "hello" 1) true)) ≠
      SessionState.Idle ∧
    (resolveFetch
        (handleReset (handleMicPress (handleSubmit initState "hello" 1) true))
        { id := 0, prompt := "hello", history := [] }
        (.ok "hi there") "aborted" 4).messages ≠ [] := by
  decide

/-- C2 amended: `handleReset` empties the transcript, clears the pending
transcript, clears the Processing flag (so from Idle or Processing the state
is Idle afterwards), aborts any in-flight relay call and stops speech
synthesis; but it does not stop capture, so `isListening` is unchanged (from
Listening the state remains Listening), and an aborted in-flight call's
rejection afterwards appends one templated assistant error turn to the
emptied transcript. -/
theorem c2_reset_effect (s : ClientState) :
    (handleReset s).messages = [] ∧
    (handleReset s).pendingText = "" ∧
    (handleReset s).isProcessing = false ∧
    (handleReset s).speaking = none ∧
    (handleReset s).isListening = s.isListening ∧
    (s.isListening = false → sessionState (handleReset s) = .Idle) ∧
    (∀ i, s.currentController = some i →
      (handleReset s).aborted.contains i = true) ∧
    (∀ c res m t, (handleReset s).aborted.contains c.id = true →
      (resolveFetch (handleReset s) c res m t).messages =
        [{ role := .assistant, content := problemMsg m, timestamp := t }]) := by
  refine ⟨by simp [handleReset], by simp [handleReset], by simp [handleReset],
    by simp [handleReset], by simp [handleReset], ?_, ?_, ?_⟩
  · intro h
    simp [sessionState, handleReset, h]
  · intro i h
    simp [handleReset, h]
  · intro c res m t hc
    have hc' : c.id ∈ (handleReset s).aborted := by simpa using hc
    simp only [handleReset] at hc'
    simp [resolveFetch, handleReset, hc']

/-- C2 witness: resetting with call 0 in flight, then letting the aborted
call settle, leaves exactly the one templated error turn. -/
theorem c2_witness :
    (resolveFetch (handleReset (submitQuery initState "hello" 1))
        { id := 0, prompt := "hello", history := [] }
        (.ok "hi") "aborted" 2).messages =
      [{ role := .assistant, content := problemMsg "aborted", timestamp := 2 }] :=
  (c2_reset_effect (submitQuery initState "hello" 1)).2.2.2.2.2.2.2
    { id := 0, prompt := "hello", history := [] } (.ok "hi") "aborted" 2
    (by decide)

end VoiceSphere
